import Mathlib

/-!
Verification of the core logic of `telegram_bot.py` (a Telegram bot that
reports geolocation information for IPv4 addresses).

The Python source is shallowly embedded:

* `is_valid_ip` models the Python function of the same name.  The Python
  code first runs `re.match` with the pattern `^(\d{1,3}\.){3}\d{1,3}$`
  and then checks `0 <= int(part) <= 255` for every part of
  `ip.split('.')`.  CPython semantics that matter here and are modelled
  faithfully: with `re.match`, the final `$` matches either at the end of
  the string or just before a single trailing newline character, and
  `int` ignores surrounding whitespace.  Digits are modelled as the ASCII
  digits `0`-`9` and stripped whitespace as space, tab, CR and LF.
* `get_ip_info` models the lookup function.  Its two outbound HTTP calls
  (`api.ipify.org` self-discovery and the `ipapi.co` geolocation call,
  each including the `.json()` decoding) are abstracted into an
  environment `Env`; a call either returns a decoded value or fails with
  a Python exception, modelled by `PyExn`.  JSON leaf values of the
  geolocation payload are modelled by their Python `str` rendering, and
  presence of the `error` key by an `Option` field.  The instrumented
  variant `get_ip_info_traced` additionally records the outbound network
  calls in order.
* `ip_command` and `handle_message` model the two handlers; each returns
  the list of messages sent in reply together with the network trace.
-/

namespace TelegramIpBot

/-- One part of the result of Python's `str.split('.')`, over character
lists: splitting on `'.'`, keeping empty parts, with `[[]]` for the empty
string (as in CPython). -/
def splitDots : List Char → List (List Char)
  | [] => [[]]
  | c :: rest =>
    if c = '.' then [] :: splitDots rest
    else
      match splitDots rest with
      | [] => [[c]]
      | g :: gs => (c :: g) :: gs

/-- A group matched by one `\d{1,3}` of the pattern: one to three
decimal digits. -/
def isDigitGroup (g : List Char) : Bool :=
  decide (1 ≤ g.length) && decide (g.length ≤ 3) && g.all Char.isDigit

/-- The language of `(\d{1,3}\.){3}\d{1,3}` as a predicate on character
lists: splitting on dots yields exactly four digit groups. -/
def pyRegexCore (cs : List Char) : Bool :=
  (splitDots cs).length == 4 && (splitDots cs).all isDigitGroup

/-- Remove a single trailing newline, if present.  This is the string
that the final `$` of the Python pattern effectively anchors to (CPython:
`$` matches at the end of the string or just before a newline at the end
of the string). -/
def stripTrailingNewline (cs : List Char) : List Char :=
  if cs.getLast? = some '\n' then cs.dropLast else cs

/-- `re.match(r'^(\d{1,3}\.){3}\d{1,3}$', s) is not None` in CPython. -/
def pyMatch (s : String) : Bool :=
  pyRegexCore (stripTrailingNewline s.data)

/-- Strip leading and trailing whitespace from a character list (models
both Python `str.strip()` and the whitespace tolerance of `int`). -/
def stripWS (cs : List Char) : List Char :=
  ((cs.dropWhile Char.isWhitespace).reverse.dropWhile Char.isWhitespace).reverse

/-- Value of a list of decimal digits, most significant first. -/
def digitsToNat (g : List Char) : Nat :=
  g.foldl (fun a c => 10 * a + (c.toNat - 48)) 0

/-- Python `int` on the strings that reach it inside `is_valid_ip`:
surrounding whitespace is ignored, the remaining digits are read in
base 10. -/
def pyInt (g : List Char) : Nat :=
  digitsToNat (stripWS g)

/-- The Python function `is_valid_ip`: regex match, then
`all(0 <= int(part) <= 255 for part in ip.split('.'))`. -/
def is_valid_ip (ip : String) : Bool :=
  if pyMatch ip then
    (splitDots ip.data).all (fun part => decide (0 ≤ pyInt part ∧ pyInt part ≤ 255))
  else false

/-- The address language described by the specification, on raw
character lists: the string itself consists of four dot-separated groups
of 1-3 decimal digits, each group's integer value lying in [0,255]. -/
def specValidCore (cs : List Char) : Bool :=
  pyRegexCore cs &&
    (splitDots cs).all (fun part => decide (0 ≤ digitsToNat part ∧ digitsToNat part ≤ 255))

/-- The validator the specification describes (written from the spec's
words, for comparison with `is_valid_ip`): `s` itself consists of four
dot-separated 1-3-digit groups with every value in [0,255]. -/
def specValidIPv4 (s : String) : Bool :=
  specValidCore s.data

/-- The amended validator specification: the same language, but applied
to `s` with a single trailing newline removed, mirroring what the
CPython `$` anchor actually accepts. -/
def specValidIPv4Stripped (s : String) : Bool :=
  specValidCore (stripTrailingNewline s.data)

/-- A candidate in which some dot-separated group has a leading zero
(a group of length at least two starting with the digit zero). -/
def hasLeadingZeroGroup (s : String) : Bool :=
  (splitDots s.data).any (fun g => decide (2 ≤ g.length) && (g.head? == some '0'))

/-- Python `str.strip()` as used on the incoming message text. -/
def pyStrip (s : String) : String :=
  String.mk (stripWS s.data)

/-- The geolocation payload decoded from the `ipapi.co` JSON answer.
Each optional key of the JSON object is an `Option` field (`none` models
an absent key); JSON leaf values are carried as their Python `str`
rendering, which is what the f-string interpolation prints.  The `error`
field models presence of the `'error'` key that the code tests with
`'error' not in data`. -/
structure Payload where
  error : Option String
  ip : Option String
  country_name : Option String
  region : Option String
  city : Option String
  org : Option String
  latitude : Option String
  longitude : Option String
  timezone : Option String
deriving DecidableEq

/-- Replace the `city` field of a payload, leaving the rest unchanged. -/
def setCity (d : Payload) (c : Option String) : Payload :=
  ⟨d.error, d.ip, d.country_name, d.region, c, d.org, d.latitude, d.longitude, d.timezone⟩

/-- A Python exception escaping one of the two `requests.get` calls (or
the subsequent `.json()` decoding): the three cases distinguished by the
`except` clauses of `get_ip_info`.  `other` carries `str(e)`. -/
inductive PyExn where
  | connectionError
  | timeout
  | other (msg : String)
deriving DecidableEq

/-- An outbound network call made by `get_ip_info`: the `api.ipify.org`
self-discovery call, or the `ipapi.co` geolocation call for an address. -/
inductive NetCall where
  | ipify
  | ipapi (addr : String)
deriving DecidableEq

/-- The external world the lookup runs against: the result of the
self-discovery call (`requests.get('https://api.ipify.org...')` plus
`response.json()['ip']`) and, per requested address, the result of the
geolocation call (`requests.get('https://ipapi.co/.../json/')` plus
`response.json()`). -/
structure Env where
  selfLookup : Except PyExn String
  geoLookup : String → Except PyExn Payload

/-- `data.get(key, 'N/A')` on one payload field. -/
def pyGet (v : Option String) : String :=
  v.getD "N/A"

/-- The f-string `info` built by `get_ip_info` for a payload without an
`error` key (the multi-line Markdown answer). -/
def renderInfo (d : Payload) : String :=
  "\n📍 *Информация об IP-адресе:*\n\n• 🆔 *IP:* `" ++ pyGet d.ip ++
  "`\n• 🏳️ *Страна:* " ++ pyGet d.country_name ++
  "\n• 📍 *Регион:* " ++ pyGet d.region ++
  "\n• 🏙️ *Город:* " ++ pyGet d.city ++
  "\n• 📡 *Провайдер:* " ++ pyGet d.org ++
  "\n• 🌐 *Организация:* " ++ pyGet d.org ++
  "\n• 📍 *Координаты:* " ++ pyGet d.latitude ++ ", " ++ pyGet d.longitude ++
  "\n• 🕐 *Часовой пояс:* " ++ pyGet d.timezone ++
  "\n            "

/-- The message returned when the geolocation payload carries an
`error` key; it names the address that was looked up. -/
def geoErrorMsg (addr : String) : String :=
  "❌ Ошибка: Не удалось получить информацию об IP " ++ addr

/-- The messages of the three `except` clauses of `get_ip_info`:
`requests.exceptions.ConnectionError`, `requests.exceptions.Timeout`,
and the catch-all `except Exception as e` echoing `str(e)`. -/
def pyClassify : PyExn → String
  | PyExn.connectionError => "❌ Ошибка соединения. Пожалуйста, проверьте подключение к интернету."
  | PyExn.timeout => "⏰ Таймаут запроса. Сервер не ответил вовремя."
  | PyExn.other e => "⚠️ Произошла ошибка: " ++ e

/-- The Python function `get_ip_info`, instrumented with the list of
outbound network calls it makes, in order.  An empty `ip_address`
(`not ip_address or ip_address == ''` in the source, which for a string
argument is emptiness) first runs self-discovery; a raised exception
anywhere in the `try` block is caught and classified, aborting the rest
of the body. -/
def get_ip_info_traced (env : Env) (ip_address : String) : String × List NetCall :=
  if ip_address = "" then
    match env.selfLookup with
    | Except.error e => (pyClassify e, [NetCall.ipify])
    | Except.ok working =>
      match env.geoLookup working with
      | Except.error e => (pyClassify e, [NetCall.ipify, NetCall.ipapi working])
      | Except.ok data =>
        if data.error = none then (renderInfo data, [NetCall.ipify, NetCall.ipapi working])
        else (geoErrorMsg working, [NetCall.ipify, NetCall.ipapi working])
  else
    match env.geoLookup ip_address with
    | Except.error e => (pyClassify e, [NetCall.ipapi ip_address])
    | Except.ok data =>
      if data.error = none then (renderInfo data, [NetCall.ipapi ip_address])
      else (geoErrorMsg ip_address, [NetCall.ipapi ip_address])

/-- The string `get_ip_info` returns. -/
def get_ip_info (env : Env) (ip_address : String) : String :=
  (get_ip_info_traced env ip_address).fst

/-- The working address the lookup resolves before the geolocation call:
the discovered address when the supplied one is empty, otherwise the
supplied address itself. -/
def workingOf (env : Env) (ip_address : String) : Except PyExn String :=
  if ip_address = "" then env.selfLookup else Except.ok ip_address

/-- The transient acknowledgment sent before a lookup with a known
address. -/
def ackFetching : String := "🔄 Получаю информацию..."

/-- The transient acknowledgment sent before a self-discovery lookup. -/
def ackDiscover : String := "🔍 Определяю ваш IP-адрес..."

/-- The static guidance text sent for free text that is not an
address. -/
def guidanceText : String :=
  "🤔 Это не похоже на IP-адрес.\n\n📌 Отправьте IP-адрес в формате: `8.8.8.8`\n📌 Или используйте команду: `/ip 8.8.8.8`"

/-- The `/ip` command handler `ip_command`: with an argument it looks up
`context.args[0]`, without one it looks up the caller's own address.
Returns the replies sent, in order, together with the network trace. -/
def ip_command (env : Env) (args : List String) : List String × List NetCall :=
  match args with
  | a :: _ =>
    let r := get_ip_info_traced env a
    ([ackFetching, r.fst], r.snd)
  | [] =>
    let r := get_ip_info_traced env ""
    ([ackDiscover, r.fst], r.snd)

/-- The free-text handler `handle_message`: strips the text, validates
it with `is_valid_ip`, and either runs the lookup or sends the static
guidance.  Returns the replies sent, in order, together with the network
trace. -/
def handle_message (env : Env) (text : String) : List String × List NetCall :=
  let user_message := pyStrip text
  if is_valid_ip user_message then
    let r := get_ip_info_traced env user_message
    ([ackFetching, r.fst], r.snd)
  else
    ([guidanceText], [])

/-- `needle` occurs as a contiguous substring of `hay`. -/
def occursIn (needle hay : String) : Prop :=
  ∃ pre post : String, hay = pre ++ needle ++ post

/-- Executable substring test (for concrete strings): some suffix of
`hay` starts with `needle`. -/
def containsB (needle hay : String) : Bool :=
  hay.data.tails.any (fun t => needle.data.isPrefixOf t)

/-- Number of (possibly overlapping) occurrences of `needle` in
`hay`. -/
def countOccur (needle hay : String) : Nat :=
  (hay.data.tails.filter (fun t => needle.data.isPrefixOf t)).length

/-- Append a character to the last part of a dot-split (used to relate
the split of `cs ++ [c]` to the split of `cs`). -/
def appendLast : List (List Char) → Char → List (List Char)
  | [], c => [[c]]
  | [g], c => [g ++ [c]]
  | g :: g' :: gs, c => g :: appendLast (g' :: gs) c

/-- The mocked geolocation payload of the specification's end-to-end
example: `ip`, `country_name`, `city`, `org`, `latitude`, `longitude`
and `timezone` present, no `error` key — and no `region` key. -/
def payload3 : Payload :=
  ⟨none, some "8.8.8.8", some "United States", none, some "Mountain View",
   some "Google LLC", some "37.4", some "-122.1", some "America/Los_Angeles"⟩

/-- Environment for the end-to-end example: the geolocation call for
`8.8.8.8` answers with `payload3`; everything else fails. -/
def env3 : Env :=
  ⟨Except.error (PyExn.other "self-discovery unavailable"),
   fun a => if a = "8.8.8.8" then Except.ok payload3 else Except.error PyExn.timeout⟩

/-- The formatted reply (second message sent) of the end-to-end example:
free text `8.8.8.8` against `env3`. -/
def reply3 : String :=
  ((handle_message env3 "8.8.8.8").fst).getD 1 ""

/-- An environment in which every outbound call times out. -/
def envT : Env :=
  ⟨Except.error PyExn.timeout, fun _ => Except.error PyExn.timeout⟩

/-- An environment whose self-discovery yields `9.9.9.9` and whose
geolocation call reports a remote error. -/
def envE : Env :=
  ⟨Except.ok "9.9.9.9",
   fun _ => Except.ok ⟨some "true", none, none, none, none, none, none, none, none⟩⟩

/-! ## Helper lemmas about the validator embedding -/

lemma splitDots_ne_nil (cs : List Char) : splitDots cs ≠ [] := by
  cases cs with
  | nil => simp [splitDots]
  | cons c rest =>
    simp only [splitDots]
    split
    · simp
    · split <;> simp

lemma appendLast_cons (g : List Char) (gs : List (List Char)) (c : Char) (h : gs ≠ []) :
    appendLast (g :: gs) c = g :: appendLast gs c := by
  cases gs with
  | nil => exact absurd rfl h
  | cons g' gs' => rfl

lemma splitDots_cons_dot (rest : List Char) :
    splitDots ('.' :: rest) = [] :: splitDots rest := by
  simp [splitDots]

lemma splitDots_cons_nondot {d : Char} (rest : List Char) (hd : ¬ d = '.') :
    splitDots (d :: rest) =
      match splitDots rest with
      | [] => [[d]]
      | g :: gs => (d :: g) :: gs := by
  simp [splitDots, hd]

lemma splitDots_append_nondot (ds : List Char) (c : Char) (hc : ¬ c = '.') :
    splitDots (ds ++ [c]) = appendLast (splitDots ds) c := by
  induction ds with
  | nil => simp [splitDots, appendLast, hc]
  | cons d rest ih =>
    by_cases hd : d = '.'
    · subst hd
      rw [List.cons_append, splitDots_cons_dot, splitDots_cons_dot, ih,
        appendLast_cons _ _ _ (splitDots_ne_nil rest)]
    · rw [List.cons_append, splitDots_cons_nondot _ hd, splitDots_cons_nondot _ hd, ih]
      cases hS : splitDots rest with
      | nil => exact absurd hS (splitDots_ne_nil rest)
      | cons g gs =>
        cases gs with
        | nil => simp [appendLast]
        | cons g' gs' => simp [appendLast]

lemma digit_not_ws {c : Char} (h : c.isDigit = true) : c.isWhitespace = false := by
  cases hw : c.isWhitespace with
  | false => rfl
  | true =>
    exfalso
    have hcs : ((c = ' ' ∨ c = '\t') ∨ c = '\x0d') ∨ c = '\n' := by
      simpa [Char.isWhitespace] using hw
    rcases hcs with ((h1 | h1) | h1) | h1 <;> subst h1 <;> simp [Char.isDigit] at h

lemma dropWhile_ws_of_digits {p : List Char} (h : p.all Char.isDigit = true) :
    p.dropWhile Char.isWhitespace = p := by
  cases p with
  | nil => rfl
  | cons a q =>
    have ha : a.isDigit = true := by
      simp only [List.all_cons, Bool.and_eq_true] at h
      exact h.1
    simp [List.dropWhile, digit_not_ws ha]

lemma all_digits_reverse {p : List Char} (h : p.all Char.isDigit = true) :
    p.reverse.all Char.isDigit = true := by
  rw [List.all_eq_true] at *
  intro x hx
  exact h x (by simpa using hx)

lemma stripWS_of_digits {p : List Char} (h : p.all Char.isDigit = true) :
    stripWS p = p := by
  unfold stripWS
  rw [dropWhile_ws_of_digits h, dropWhile_ws_of_digits (all_digits_reverse h),
    List.reverse_reverse]

lemma stripWS_digits_newline {p : List Char} (h : p.all Char.isDigit = true) (hne : p ≠ []) :
    stripWS (p ++ ['\n']) = p := by
  unfold stripWS
  have h1 : (p ++ ['\n']).dropWhile Char.isWhitespace = p ++ ['\n'] := by
    cases p with
    | nil => exact absurd rfl hne
    | cons a q =>
      have ha : a.isDigit = true := by
        simp only [List.all_cons, Bool.and_eq_true] at h
        exact h.1
      rw [List.cons_append]
      simp [List.dropWhile, digit_not_ws ha]
  rw [h1]
  have h2 : (p ++ ['\n']).reverse = '\n' :: p.reverse := by simp
  rw [h2]
  have h3 : List.dropWhile Char.isWhitespace ('\n' :: p.reverse) =
      List.dropWhile Char.isWhitespace p.reverse := by
    simp [List.dropWhile]
  rw [h3, dropWhile_ws_of_digits (all_digits_reverse h), List.reverse_reverse]

lemma all_congr_mem {α : Type} (l : List α) (f g : α → Bool) (h : ∀ x ∈ l, f x = g x) :
    l.all f = l.all g := by
  induction l with
  | nil => rfl
  | cons a t ih =>
    rw [List.all_cons, List.all_cons, h a (List.mem_cons_self a t),
      ih (fun x hx => h x (List.mem_cons_of_mem a hx))]

lemma getLast?_decomp {cs : List Char} {c : Char} (h : cs.getLast? = some c) :
    cs = cs.dropLast ++ [c] := by
  induction cs using List.reverseRecOn with
  | nil => simp at h
  | append_singleton l a _ =>
    rw [List.getLast?_concat] at h
    injection h with h
    subst h
    rw [List.dropLast_concat]

lemma appendLast_mem_last (S : List (List Char)) (c : Char) :
    ∃ g, g ∈ appendLast S c ∧ c ∈ g := by
  induction S with
  | nil => exact ⟨[c], by simp [appendLast]⟩
  | cons g gs ih =>
    cases gs with
    | nil => exact ⟨g ++ [c], by simp [appendLast]⟩
    | cons g' gs' =>
      obtain ⟨g0, hg0, hc⟩ := ih
      exact ⟨g0, by simp [appendLast]; exact Or.inr hg0, hc⟩

lemma pyRegexCore_parts {cs : List Char} (h : pyRegexCore cs = true) :
    (splitDots cs).length = 4 ∧ ∀ g ∈ splitDots cs, isDigitGroup g = true := by
  simp only [pyRegexCore, Bool.and_eq_true, beq_iff_eq, List.all_eq_true] at h
  exact h

lemma isDigitGroup_spec {g : List Char} (h : isDigitGroup g = true) :
    1 ≤ g.length ∧ g.length ≤ 3 ∧ g.all Char.isDigit = true := by
  simp only [isDigitGroup, Bool.and_eq_true, decide_eq_true_eq] at h
  exact ⟨h.1.1, h.1.2, h.2⟩

lemma pyRegexCore_no_newline {cs : List Char} (h : pyRegexCore cs = true) :
    ¬ cs.getLast? = some '\n' := by
  intro hl
  have hcs : cs = cs.dropLast ++ ['\n'] := getLast?_decomp hl
  have hsd : splitDots cs = appendLast (splitDots cs.dropLast) '\n' := by
    conv_lhs => rw [hcs]
    exact splitDots_append_nondot _ _ (by decide)
  obtain ⟨g, hg, hc⟩ := appendLast_mem_last (splitDots cs.dropLast) '\n'
  have hdg : isDigitGroup g = true := (pyRegexCore_parts h).2 g (by rw [hsd]; exact hg)
  have hdig : Char.isDigit '\n' = true := by
    have hall := (isDigitGroup_spec hdg).2.2
    rw [List.all_eq_true] at hall
    exact hall _ hc
  simp at hdig

lemma strip_of_no_newline {cs : List Char} (h : ¬ cs.getLast? = some '\n') :
    stripTrailingNewline cs = cs := by
  simp [stripTrailingNewline, h]

lemma strip_concat_newline (ds : List Char) :
    stripTrailingNewline (ds ++ ['\n']) = ds := by
  simp [stripTrailingNewline, List.getLast?_concat, List.dropLast_concat]

lemma pyInt_of_digits {p : List Char} (h : p.all Char.isDigit = true) :
    pyInt p = digitsToNat p := by
  unfold pyInt
  rw [stripWS_of_digits h]

/-- The central characterisation of `is_valid_ip`: it accepts exactly
the strings whose single trailing newline (if any) is removed and whose
remainder consists of four dot-separated 1-3-digit groups with all
values in [0,255]. -/
lemma is_valid_ip_eq_stripped (s : String) :
    is_valid_ip s = specValidCore (stripTrailingNewline s.data) := by
  unfold is_valid_ip pyMatch specValidCore
  cases hm : pyRegexCore (stripTrailingNewline s.data) with
  | false => simp
  | true =>
    simp only [if_true, Bool.true_and]
    by_cases hl : s.data.getLast? = some '\n'
    · obtain ⟨ds, hds⟩ : ∃ ds, s.data = ds ++ ['\n'] :=
        ⟨s.data.dropLast, getLast?_decomp hl⟩
      rw [hds, strip_concat_newline] at hm
      rw [hds, strip_concat_newline, splitDots_append_nondot _ _ (by decide)]
      obtain ⟨hlen, hall⟩ := pyRegexCore_parts hm
      rcases hS : splitDots ds with _ | ⟨p1, _ | ⟨p2, _ | ⟨p3, _ | ⟨p4, _ | ⟨p5, t⟩⟩⟩⟩⟩ <;>
          rw [hS] at hlen <;> simp only [List.length_cons, List.length_nil] at hlen <;>
          try omega
      rw [hS] at hall
      have d1 := (isDigitGroup_spec (hall p1 (by simp))).2.2
      have d2 := (isDigitGroup_spec (hall p2 (by simp))).2.2
      have d3 := (isDigitGroup_spec (hall p3 (by simp))).2.2
      have d4 := (isDigitGroup_spec (hall p4 (by simp))).2.2
      have ne4 : p4 ≠ [] := by
        have h1 := (isDigitGroup_spec (hall p4 (by simp))).1
        intro h0
        rw [h0] at h1
        simp at h1
      have e4 : pyInt (p4 ++ ['\n']) = digitsToNat p4 := by
        unfold pyInt
        rw [stripWS_digits_newline d4 ne4]
      simp only [appendLast, List.all_cons, List.all_nil, Bool.and_true]
      rw [pyInt_of_digits d1, pyInt_of_digits d2, pyInt_of_digits d3, e4]
    · rw [strip_of_no_newline hl] at hm
      rw [strip_of_no_newline hl]
      refine all_congr_mem _ _ _ (fun p hp => ?_)
      have hd := (isDigitGroup_spec ((pyRegexCore_parts hm).2 p hp)).2.2
      show decide (0 ≤ pyInt p ∧ pyInt p ≤ 255) =
        decide (0 ≤ digitsToNat p ∧ digitsToNat p ≤ 255)
      rw [pyInt_of_digits hd]

/-- `is_valid_ip` accepts everything the specification's language
contains: a straight regex match never ends in a newline, so no
stripping occurs. -/
lemma is_valid_ip_of_specValid {s : String} (h : specValidIPv4 s = true) :
    is_valid_ip s = true := by
  have hcore : pyRegexCore s.data = true := by
    have hh := h
    simp only [specValidIPv4, specValidCore, Bool.and_eq_true] at hh
    exact hh.1
  rw [is_valid_ip_eq_stripped, strip_of_no_newline (pyRegexCore_no_newline hcore)]
  exact h

/-! ## Helper lemmas about the lookup embedding -/

lemma traced_self_error {env : Env} {e : PyExn} (h : env.selfLookup = Except.error e) :
    get_ip_info_traced env "" = (pyClassify e, [NetCall.ipify]) := by
  unfold get_ip_info_traced
  rw [if_pos rfl, h]

lemma traced_geo_error {env : Env} {ip w : String} {e : PyExn}
    (h1 : workingOf env ip = Except.ok w) (h2 : env.geoLookup w = Except.error e) :
    get_ip_info env ip = pyClassify e := by
  unfold get_ip_info get_ip_info_traced
  unfold workingOf at h1
  by_cases hip : ip = ""
  · rw [if_pos hip] at h1
    simp [hip, h1, h2]
  · rw [if_neg hip] at h1
    injection h1 with h1
    subst h1
    simp [hip, h2]

lemma traced_geo_ok {env : Env} {ip w : String} {d : Payload}
    (h1 : workingOf env ip = Except.ok w) (h2 : env.geoLookup w = Except.ok d) :
    get_ip_info env ip = (if d.error = none then renderInfo d else geoErrorMsg w) := by
  unfold get_ip_info get_ip_info_traced
  unfold workingOf at h1
  by_cases hip : ip = ""
  · rw [if_pos hip] at h1
    by_cases he : d.error = none <;> simp [hip, h1, h2, he]
  · rw [if_neg hip] at h1
    injection h1 with h1
    subst h1
    by_cases he : d.error = none <;> simp [hip, h2, he]

lemma traced_calls_le_two (env : Env) (ip : String) :
    (get_ip_info_traced env ip).snd.length ≤ 2 := by
  unfold get_ip_info_traced
  split
  · split
    · simp
    · split
      · simp
      · split <;> simp
  · split
    · simp
    · split <;> simp

/-! ## Claim theorems -/

/-- C1, counterexample: the claim that `is_valid_ip s` is true exactly
when `s` itself consists of four dot-separated 1-3-digit groups with
every value in [0,255] fails at `s = "1.2.3.4\n"`: the validator
accepts it (the CPython `$` matches before the trailing newline and
`int` ignores the whitespace), although the string does not consist of
four such groups. -/
theorem c1_counterexample :
    is_valid_ip "1.2.3.4\n" = true ∧ specValidIPv4 "1.2.3.4\n" = false := by
  constructor <;> rfl

/-- C1, amended: the validator returns true exactly when the string,
after removal of at most one trailing newline character, consists of
four dot-separated groups of 1-3 decimal digits whose integer values
all lie in [0,255]; every other string is rejected. -/
theorem c1_validator_characterisation (s : String) :
    is_valid_ip s = specValidIPv4Stripped s :=
  is_valid_ip_eq_stripped s

/-- C2, counterexample: the claim that a leading-zero group makes the
validator return false fails at "01.2.3.4": its first group has a
leading zero, yet the validator returns true — the pattern `\d{1,3}`
does not reject leading zeros, and the group value 01 parses to 1. -/
theorem c2_counterexample :
    hasLeadingZeroGroup "01.2.3.4" = true ∧ is_valid_ip "01.2.3.4" = true := by
  constructor <;> rfl

/-- C2, amended: leading zeros do not invalidate a candidate: every
string consisting of four dot-separated groups of 1-3 decimal digits
with all values in [0,255] is accepted by the validator, including
candidates in which some group carries a leading zero. -/
theorem c2_leading_zeros_accepted (s : String)
    (_hz : hasLeadingZeroGroup s = true) (hs : specValidIPv4 s = true) :
    is_valid_ip s = true :=
  is_valid_ip_of_specValid hs

/-- C2, witness: the amended statement evaluated at "01.2.3.4". -/
theorem c2_leading_zeros_accepted_witness :
    hasLeadingZeroGroup "01.2.3.4" = true ∧ specValidIPv4 "01.2.3.4" = true ∧
      is_valid_ip "01.2.3.4" = true :=
  ⟨by rfl, by rfl, c2_leading_zeros_accepted "01.2.3.4" (by rfl) (by rfl)⟩

/-- C6: with an empty address, if the self-discovery call fails with any
exception, the classified error message is returned at once and the
geolocation call is never attempted: the network trace is exactly the
single self-discovery call. -/
theorem c6_self_discovery_failure (env : Env) (e : PyExn)
    (h : env.selfLookup = Except.error e) :
    get_ip_info_traced env "" = (pyClassify e, [NetCall.ipify]) :=
  traced_self_error h

/-- C6, witness: the theorem evaluated in the all-timeout
environment. -/
theorem c6_self_discovery_failure_witness :
    envT.selfLookup = Except.error PyExn.timeout ∧
      get_ip_info_traced envT "" = (pyClassify PyExn.timeout, [NetCall.ipify]) :=
  ⟨rfl, c6_self_discovery_failure envT PyExn.timeout rfl⟩

/-- C7: every failure of either outbound call is classified and returned
as a string: the lookup returns exactly the classified message of the
exception, where a connection-level failure maps to the connection
message, a deadline exceeded to the timeout message, and any other
exception to the unknown-error message echoing the exception text. -/
theorem c7_error_classification (env : Env) (ip : String) (e : PyExn)
    (h : workingOf env ip = Except.error e ∨
      ∃ w, workingOf env ip = Except.ok w ∧ env.geoLookup w = Except.error e) :
    get_ip_info env ip = pyClassify e ∧
      pyClassify PyExn.connectionError =
        "❌ Ошибка соединения. Пожалуйста, проверьте подключение к интернету." ∧
      pyClassify PyExn.timeout = "⏰ Таймаут запроса. Сервер не ответил вовремя." ∧
      ∀ dtl : String, pyClassify (PyExn.other dtl) = "⚠️ Произошла ошибка: " ++ dtl := by
  refine ⟨?_, rfl, rfl, fun dtl => rfl⟩
  rcases h with h | ⟨w, h1, h2⟩
  · unfold workingOf at h
    by_cases hip : ip = ""
    · rw [if_pos hip] at h
      rw [hip]
      show (get_ip_info_traced env "").fst = pyClassify e
      rw [traced_self_error h]
    · rw [if_neg hip] at h
      exact absurd h (by simp)
  · exact traced_geo_error h1 h2

/-- C7, witness: the theorem evaluated in the all-timeout environment
with an empty address. -/
theorem c7_error_classification_witness :
    workingOf envT "" = Except.error PyExn.timeout ∧
      get_ip_info envT "" = pyClassify PyExn.timeout :=
  ⟨rfl, (c7_error_classification envT "" PyExn.timeout (Or.inl rfl)).1⟩

/-- C8: the `/ip` handler invoked with argument "1.1.1.1" performs
exactly one outbound call — the geolocation call for "1.1.1.1" — and
never the self-discovery call, in every environment; and in general a
lookup performs at most two outbound calls. -/
theorem c8_ip_command_calls :
    (∀ env : Env, (ip_command env ["1.1.1.1"]).snd = [NetCall.ipapi "1.1.1.1"]) ∧
      ∀ (env : Env) (ip : String), (get_ip_info_traced env ip).snd.length ≤ 2 := by
  constructor
  · intro env
    show (get_ip_info_traced env "1.1.1.1").snd = [NetCall.ipapi "1.1.1.1"]
    unfold get_ip_info_traced
    rw [if_neg (by decide)]
    cases hG : env.geoLookup "1.1.1.1" with
    | error e => rfl
    | ok d => by_cases he : d.error = none <;> simp [he]
  · exact traced_calls_le_two

/-- C9, counterexample: the claim fails as literally stated: the
validator rejects the free text " 1.2.3.4 " (the pattern does not allow
the spaces), yet the router strips the text before validating and does
invoke the lookup client for it, and its reply is not the guidance
text. -/
theorem c9_counterexample :
    is_valid_ip " 1.2.3.4 " = false ∧
      (handle_message envT " 1.2.3.4 ").snd = [NetCall.ipapi "1.2.3.4"] ∧
      (handle_message envT " 1.2.3.4 ").fst ≠ [guidanceText] := by
  refine ⟨rfl, rfl, ?_⟩
  decide

/-- C9, amended: for every free-text message whose whitespace-stripped
text the validator rejects, the router never invokes the lookup client
(empty network trace) and replies with exactly the static guidance
text. -/
theorem c9_guidance (env : Env) (text : String)
    (h : is_valid_ip (pyStrip text) = false) :
    handle_message env text = ([guidanceText], []) := by
  unfold handle_message
  simp [h]

/-- C9, witness: the amended statement evaluated at "hello". -/
theorem c9_guidance_witness :
    is_valid_ip (pyStrip "hello") = false ∧
      handle_message envT "hello" = ([guidanceText], []) :=
  ⟨rfl, c9_guidance envT "hello" rfl⟩

/-- C5: when the geolocation payload carries an error key, the lookup
returns exactly the remote-error message, and that message names the
working address (the discovered address when self-discovery was used,
otherwise the supplied one); no payload rendering is produced. -/
theorem c5_remote_error (env : Env) (ip w : String) (d : Payload)
    (h1 : workingOf env ip = Except.ok w) (h2 : env.geoLookup w = Except.ok d)
    (h3 : ¬ d.error = none) :
    get_ip_info env ip = geoErrorMsg w ∧ occursIn w (get_ip_info env ip) := by
  have hmain : get_ip_info env ip = geoErrorMsg w := by
    rw [traced_geo_ok h1 h2, if_neg h3]
  refine ⟨hmain, ?_⟩
  rw [hmain]
  exact ⟨"❌ Ошибка: Не удалось получить информацию об IP ", "", by
    rw [String.append_empty]; rfl⟩

/-- C5, witness: the theorem evaluated with an empty address against an
environment whose self-discovery yields "9.9.9.9" and whose geolocation
payload reports an error. -/
theorem c5_remote_error_witness :
    workingOf envE "" = Except.ok "9.9.9.9" ∧
      get_ip_info envE "" = geoErrorMsg "9.9.9.9" :=
  ⟨rfl,
    (c5_remote_error envE "" "9.9.9.9"
      ⟨some "true", none, none, none, none, none, none, none, none⟩
      rfl rfl (by simp)).1⟩

set_option maxRecDepth 16384 in
/-- C3, counterexample: in the end-to-end example (free text "8.8.8.8"
against the claim's exact payload, which carries no region key), the
formatted reply does contain all the payload values — but it does
contain an "N/A" placeholder, contradicting the claim's "no N/A
placeholder anywhere". -/
theorem c3_counterexample :
    payload3.error = none ∧
      (containsB "8.8.8.8" reply3 && containsB "United States" reply3 &&
        containsB "Mountain View" reply3 && containsB "Google LLC" reply3 &&
        containsB "37.4" reply3 && containsB "-122.1" reply3 &&
        containsB "America/Los_Angeles" reply3) = true ∧
      containsB "N/A" reply3 = true := by
  refine ⟨rfl, ?_, ?_⟩ <;> rfl

set_option maxRecDepth 16384 in
/-- C3, amended: the formatted reply for free text "8.8.8.8" with the
claim's payload contains all the payload values, and exactly one "N/A"
placeholder, which sits in the region slot (the payload carries no
region field). -/
theorem c3_amended_reply :
    (containsB "8.8.8.8" reply3 && containsB "United States" reply3 &&
      containsB "Mountain View" reply3 && containsB "Google LLC" reply3 &&
      containsB "37.4" reply3 && containsB "-122.1" reply3 &&
      containsB "America/Los_Angeles" reply3) = true ∧
      countOccur "N/A" reply3 = 1 ∧
      containsB "*Регион:* N/A" reply3 = true := by
  refine ⟨?_, ?_, ?_⟩ <;> rfl

set_option maxRecDepth 16384 in
/-- C4: for every payload without an error key, every field value
present in the payload is reproduced verbatim in the formatted output;
and when the city field is absent, the city slot renders the literal
"N/A" while every other field's rendering is unchanged: the output
differs from the output for any present city value only inside the city
slot (same prefix ending in the city label, same suffix). -/
theorem c4_formatter_fields (d : Payload) (_he : d.error = none) :
    (∀ v, d.ip = some v → occursIn v (renderInfo d)) ∧
    (∀ v, d.country_name = some v → occursIn v (renderInfo d)) ∧
    (∀ v, d.region = some v → occursIn v (renderInfo d)) ∧
    (∀ v, d.city = some v → occursIn v (renderInfo d)) ∧
    (∀ v, d.org = some v → occursIn v (renderInfo d)) ∧
    (∀ v, d.latitude = some v → occursIn v (renderInfo d)) ∧
    (∀ v, d.longitude = some v → occursIn v (renderInfo d)) ∧
    (∀ v, d.timezone = some v → occursIn v (renderInfo d)) ∧
    (d.city = none → ∀ c : String, ∃ pre post : String,
      (∃ pre0 : String, pre = pre0 ++ "\n• 🏙️ *Город:* ") ∧
      renderInfo d = pre ++ "N/A" ++ post ∧
      renderInfo (setCity d (some c)) = pre ++ c ++ post) := by
  refine ⟨?_, ?_, ?_, ?_, ?_, ?_, ?_, ?_, ?_⟩
  · intro v hv
    exact ⟨"\n📍 *Информация об IP-адресе:*\n\n• 🆔 *IP:* `",
      "`\n• 🏳️ *Страна:* " ++ pyGet d.country_name ++
      "\n• 📍 *Регион:* " ++ pyGet d.region ++
      "\n• 🏙️ *Город:* " ++ pyGet d.city ++
      "\n• 📡 *Провайдер:* " ++ pyGet d.org ++
      "\n• 🌐 *Организация:* " ++ pyGet d.org ++
      "\n• 📍 *Координаты:* " ++ pyGet d.latitude ++ ", " ++ pyGet d.longitude ++
      "\n• 🕐 *Часовой пояс:* " ++ pyGet d.timezone ++ "\n            ",
      by simp [renderInfo, pyGet, hv, String.append_assoc]⟩
  · intro v hv
    exact ⟨"\n📍 *Информация об IP-адресе:*\n\n• 🆔 *IP:* `" ++ pyGet d.ip ++
      "`\n• 🏳️ *Страна:* ",
      "\n• 📍 *Регион:* " ++ pyGet d.region ++
      "\n• 🏙️ *Город:* " ++ pyGet d.city ++
      "\n• 📡 *Провайдер:* " ++ pyGet d.org ++
      "\n• 🌐 *Организация:* " ++ pyGet d.org ++
      "\n• 📍 *Координаты:* " ++ pyGet d.latitude ++ ", " ++ pyGet d.longitude ++
      "\n• 🕐 *Часовой пояс:* " ++ pyGet d.timezone ++ "\n            ",
      by simp [renderInfo, pyGet, hv, String.append_assoc]⟩
  · intro v hv
    exact ⟨"\n📍 *Информация об IP-адресе:*\n\n• 🆔 *IP:* `" ++ pyGet d.ip ++
      "`\n• 🏳️ *Страна:* " ++ pyGet d.country_name ++
      "\n• 📍 *Регион:* ",
      "\n• 🏙️ *Город:* " ++ pyGet d.city ++
      "\n• 📡 *Провайдер:* " ++ pyGet d.org ++
      "\n• 🌐 *Организация:* " ++ pyGet d.org ++
      "\n• 📍 *Координаты:* " ++ pyGet d.latitude ++ ", " ++ pyGet d.longitude ++
      "\n• 🕐 *Часовой пояс:* " ++ pyGet d.timezone ++ "\n            ",
      by simp [renderInfo, pyGet, hv, String.append_assoc]⟩
  · intro v hv
    exact ⟨"\n📍 *Информация об IP-адресе:*\n\n• 🆔 *IP:* `" ++ pyGet d.ip ++
      "`\n• 🏳️ *Страна:* " ++ pyGet d.country_name ++
      "\n• 📍 *Регион:* " ++ pyGet d.region ++
      "\n• 🏙️ *Город:* ",
      "\n• 📡 *Провайдер:* " ++ pyGet d.org ++
      "\n• 🌐 *Организация:* " ++ pyGet d.org ++
      "\n• 📍 *Координаты:* " ++ pyGet d.latitude ++ ", " ++ pyGet d.longitude ++
      "\n• 🕐 *Часовой пояс:* " ++ pyGet d.timezone ++ "\n            ",
      by simp [renderInfo, pyGet, hv, String.append_assoc]⟩
  · intro v hv
    exact ⟨"\n📍 *Информация об IP-адресе:*\n\n• 🆔 *IP:* `" ++ pyGet d.ip ++
      "`\n• 🏳️ *Страна:* " ++ pyGet d.country_name ++
      "\n• 📍 *Регион:* " ++ pyGet d.region ++
      "\n• 🏙️ *Город:* " ++ pyGet d.city ++
      "\n• 📡 *Провайдер:* ",
      "\n• 🌐 *Организация:* " ++ pyGet d.org ++
      "\n• 📍 *Координаты:* " ++ pyGet d.latitude ++ ", " ++ pyGet d.longitude ++
      "\n• 🕐 *Часовой пояс:* " ++ pyGet d.timezone ++ "\n            ",
      by simp [renderInfo, pyGet, hv, String.append_assoc]⟩
  · intro v hv
    exact ⟨"\n📍 *Информация об IP-адресе:*\n\n• 🆔 *IP:* `" ++ pyGet d.ip ++
      "`\n• 🏳️ *Страна:* " ++ pyGet d.country_name ++
      "\n• 📍 *Регион:* " ++ pyGet d.region ++
      "\n• 🏙️ *Город:* " ++ pyGet d.city ++
      "\n• 📡 *Провайдер:* " ++ pyGet d.org ++
      "\n• 🌐 *Организация:* " ++ pyGet d.org ++
      "\n• 📍 *Координаты:* ",
      ", " ++ pyGet d.longitude ++
      "\n• 🕐 *Часовой пояс:* " ++ pyGet d.timezone ++ "\n            ",
      by
        apply String.ext
        simp [renderInfo, pyGet, hv, String.data_append, List.append_assoc]⟩
  · intro v hv
    exact ⟨"\n📍 *Информация об IP-адресе:*\n\n• 🆔 *IP:* `" ++ pyGet d.ip ++
      "`\n• 🏳️ *Страна:* " ++ pyGet d.country_name ++
      "\n• 📍 *Регион:* " ++ pyGet d.region ++
      "\n• 🏙️ *Город:* " ++ pyGet d.city ++
      "\n• 📡 *Провайдер:* " ++ pyGet d.org ++
      "\n• 🌐 *Организация:* " ++ pyGet d.org ++
      "\n• 📍 *Координаты:* " ++ pyGet d.latitude ++ ", ",
      "\n• 🕐 *Часовой пояс:* " ++ pyGet d.timezone ++ "\n            ",
      by
        apply String.ext
        simp [renderInfo, pyGet, hv, String.data_append, List.append_assoc]⟩
  · intro v hv
    exact ⟨"\n📍 *Информация об IP-адресе:*\n\n• 🆔 *IP:* `" ++ pyGet d.ip ++
      "`\n• 🏳️ *Страна:* " ++ pyGet d.country_name ++
      "\n• 📍 *Регион:* " ++ pyGet d.region ++
      "\n• 🏙️ *Город:* " ++ pyGet d.city ++
      "\n• 📡 *Провайдер:* " ++ pyGet d.org ++
      "\n• 🌐 *Организация:* " ++ pyGet d.org ++
      "\n• 📍 *Координаты:* " ++ pyGet d.latitude ++ ", " ++ pyGet d.longitude ++
      "\n• 🕐 *Часовой пояс:* ",
      "\n            ",
      by simp [renderInfo, pyGet, hv, String.append_assoc]⟩
  · intro hc c
    refine ⟨"\n📍 *Информация об IP-адресе:*\n\n• 🆔 *IP:* `" ++ pyGet d.ip ++
      "`\n• 🏳️ *Страна:* " ++ pyGet d.country_name ++
      "\n• 📍 *Регион:* " ++ pyGet d.region ++
      "\n• 🏙️ *Город:* ",
      "\n• 📡 *Провайдер:* " ++ pyGet d.org ++
      "\n• 🌐 *Организация:* " ++ pyGet d.org ++
      "\n• 📍 *Координаты:* " ++ pyGet d.latitude ++ ", " ++ pyGet d.longitude ++
      "\n• 🕐 *Часовой пояс:* " ++ pyGet d.timezone ++ "\n            ",
      ⟨"\n📍 *Информация об IP-адресе:*\n\n• 🆔 *IP:* `" ++ pyGet d.ip ++
        "`\n• 🏳️ *Страна:* " ++ pyGet d.country_name ++
        "\n• 📍 *Регион:* " ++ pyGet d.region,
        by simp [String.append_assoc]⟩, ?_, ?_⟩
    · apply String.ext
      simp [renderInfo, pyGet, hc, String.data_append, List.append_assoc]
    · apply String.ext
      simp [renderInfo, setCity, pyGet, String.data_append, List.append_assoc]

/-- C4, witness: the theorem applied to the concrete payload of the
end-to-end example, whose error field is absent and whose city field is
"Mountain View". -/
theorem c4_formatter_fields_witness :
    payload3.error = none ∧ occursIn "Mountain View" (renderInfo payload3) :=
  ⟨rfl, (c4_formatter_fields payload3 rfl).2.2.2.1 "Mountain View" rfl⟩

/-- C10: the formatter writes the very same org value into two distinct
adjacent output lines, the provider line and the organisation line; the
payload has no separate organisation field, so the two rendered values
coincide for every payload. -/
theorem c10_org_duplicated (d : Payload) :
    ∃ pre post : String,
      renderInfo d =
        pre ++ ("\n• 📡 *Провайдер:* " ++ pyGet d.org ++
          "\n• 🌐 *Организация:* " ++ pyGet d.org) ++ post := by
  refine ⟨"\n📍 *Информация об IP-адресе:*\n\n• 🆔 *IP:* `" ++ pyGet d.ip ++
    "`\n• 🏳️ *Страна:* " ++ pyGet d.country_name ++
    "\n• 📍 *Регион:* " ++ pyGet d.region ++
    "\n• 🏙️ *Город:* " ++ pyGet d.city,
    "\n• 📍 *Координаты:* " ++ pyGet d.latitude ++ ", " ++ pyGet d.longitude ++
    "\n• 🕐 *Часовой пояс:* " ++ pyGet d.timezone ++ "\n            ", ?_⟩
  simp [renderInfo, String.append_assoc]

end TelegramIpBot
